import Mathlib

/-!
Verification of the FireCastX front-end (longvuwee/Raytheon-Team-B-Group-7).

The repository is a React UI over the openglobus 3D globe library.  Three
`App` component versions are embedded here:

* the imperative version `src/my-app/src/App.jsx` (state `ImpState`),
* the declarative-wrapper version `src/unnamed/part_005` (state `DeclState`),
* the early imperative prototype without a timeline `src/unnamed/part_004`
  (state `P4State`).

Dates are embedded as epoch milliseconds (`Int`); time-zone offsets are the
UTC offset in milliseconds (so America/Chicago standard time is
`-21600000`).  The third-party globe camera is embedded as the trace of
camera method invocations (`CamCall`), since the library's internals are
outside this repository.  React `useState` hooks become record fields and
each event handler becomes a pure state-transition function.
-/

namespace FireCast

/-- One hour in milliseconds: the `HOUR_MS = 3600_000` constant shared by the
App versions. -/
def HOUR_MS : Int := 3600000

/-- The `min` attribute of the timeline range input (`min={0}`). -/
def sliderMin : Nat := 0

/-- The `max` attribute of the timeline range input (`max={24}`; `maxIdx = 24`
in the part_000 version). -/
def sliderMax : Nat := 24

/-- The `step` attribute of the timeline range input (`step={1}`). -/
def sliderStep : Nat := 1

/-- The set of integer positions the range input can take: the integers from
`sliderMin` to `sliderMax` in steps of `sliderStep = 1`. -/
def sliderPositions : Finset Nat := Finset.Icc sliderMin sliderMax

/-- `selectedDate` from App.jsx lines 22-25:
`new Date(now.getTime() + sliderIdx * HOUR_MS)`. -/
def selectedDate (now : Int) (sliderIdx : Nat) : Int :=
  now + (sliderIdx : Int) * HOUR_MS

/-- `end` from App.jsx line 20: `new Date(now.getTime() + 24 * HOUR_MS)`. -/
def endTime (now : Int) : Int :=
  now + 24 * HOUR_MS

/-- `now` from App.jsx lines 15-19: `const d = new Date(); d.setMinutes(0,0,0)`.
`epochMs` is the current epoch time; `localOffMs` is the browser's local UTC
offset in milliseconds.  JS `setMinutes(0,0,0)` zeroes the minutes, seconds
and milliseconds of the browser-local clock reading `epochMs + localOffMs`,
which is exactly subtracting its floor-remainder modulo one hour; the result
is converted back to an epoch time. -/
def snapNow (epochMs localOffMs : Int) : Int :=
  ((epochMs + localOffMs) - (epochMs + localOffMs) % HOUR_MS) - localOffMs

/-- The minute-of-hour field an `Intl.DateTimeFormat` with a time zone of UTC
offset `tzOffMs` renders for the instant `epochMs` (used by `fmtDateTime`,
whose `timeZone` is America/Chicago). -/
def displayedMinute (epochMs tzOffMs : Int) : Int :=
  ((epochMs + tzOffMs) / 60000) % 60

/-- An instant lies on an exact hour boundary of the time zone with UTC
offset `tzOffMs`: its clock reading there is divisible by one hour. -/
def onHourBoundary (epochMs tzOffMs : Int) : Prop :=
  (epochMs + tzOffMs) % HOUR_MS = 0

instance (a b : Int) : Decidable (onHourBoundary a b) := by
  unfold onHourBoundary
  infer_instance

/-- One part of the `Intl.DateTimeFormat.formatToParts` output: a record with
a `type` and a `value` string. -/
structure FormatPart where
  type : String
  value : String
deriving DecidableEq

/-- `fmtTZShort` from App.jsx lines 38-41, as a function of the part list the
formatter returns:
`formatToParts(d).find((p) => p.type === "timeZoneName")?.value || "CT"`.
JS `find` yields the first match or `undefined`; `?.value` propagates
`undefined`; `|| "CT"` replaces any falsy value, so both a missing part and
an empty-string value fall back to `"CT"`. -/
def fmtTZShort (parts : List FormatPart) : String :=
  match parts.find? (fun p => p.type = "timeZoneName") with
  | some p => if p.value = "" then "CT" else p.value
  | none => "CT"

/-- Modelled from the spec's reading of `fmtTZShort`: yield the found part's
value whenever a `timeZoneName` part is present, and `"CT"` only when none
is.  Compared against `fmtTZShort` (the source semantics) for claim C9. -/
def fmtTZShortSpec (parts : List FormatPart) : String :=
  match parts.find? (fun p => p.type = "timeZoneName") with
  | some p => p.value
  | none => "CT"

/-- A camera fly-to target: `{ lon, lat, height }`.  The decimal-degree
literals of the sources are embedded exactly as integers scaled by `10^6`
(micro-degrees); the height is in meters. -/
structure View where
  lonE6 : Int
  latE6 : Int
  height : Int
deriving DecidableEq

/-- `US_VIEW = { lon: -98.583, lat: 39.833, height: 4_500_000 }` (App.jsx). -/
def US_VIEW : View :=
  ⟨-98583000, 39833000, 4500000⟩

/-- `START_VIEW = { lon: -119.74978, lat: 37.082052, height: 2_000_000 }`
(part_005). -/
def START_VIEW : View :=
  ⟨-119749780, 37082052, 2000000⟩

/-- The initial camera flight of the part_004 prototype:
`{ lon: -98.583, lat: 39.833, height: 4500000 }`. -/
def P4_START_VIEW : View :=
  ⟨-98583000, 39833000, 4500000⟩

/-- The part_004 `resetCompass` target: `{ lon: 0, lat: 0, height: 4500000 }`. -/
def P4_RESET_VIEW : View :=
  ⟨0, 0, 4500000⟩

/-- One invocation of a camera method of the globe library. -/
inductive CamCall where
  | camZoomIn : CamCall
  | camZoomOut : CamCall
  | flyLonLat : View → CamCall
deriving DecidableEq

/-- The camera target after a trace of camera calls: the target of the last
`flyLonLat`, if any. -/
def camTarget (calls : List CamCall) : Option View :=
  calls.foldl
    (fun acc c =>
      match c with
      | CamCall.flyLonLat v => some v
      | _ => acc)
    none

/-- A user operation on the rendered UI: dismissing the intro overlay, moving
the timeline slider, clicking the OSM or SAT base-layer button, or one of
the three camera buttons. -/
inductive Op where
  | dismissIntro : Op
  | setSlider : Nat → Op
  | clickOSM : Op
  | clickSAT : Op
  | zoomIn : Op
  | zoomOut : Op
  | resetCompass : Op
deriving DecidableEq

/-- Component state of the imperative App (src/my-app/src/App.jsx).
`globusInit` is true once the mount effect has run: the effect sets `globus`
and the two layer refs together, so one flag models the guard
`!globus || !osmRef.current || !satRef.current`.  `osmVisible`/`satVisible`
are the visibility flags of the two base tile providers; `cameraCalls` is
the trace of camera method invocations. -/
structure ImpState where
  showIntro : Bool
  sliderIdx : Nat
  base : String
  globusInit : Bool
  osmVisible : Bool
  satVisible : Bool
  cameraCalls : List CamCall
deriving DecidableEq

/-- Initial hook values of the imperative App: `useState(true)`,
`useState(0)`, `useState("OSM")`, `useState(null)`; openglobus layers are
constructed with visibility true by default. -/
def impInit : ImpState :=
  ⟨true, 0, "OSM", false, true, true, []⟩

/-- The mount effect of the imperative App (lines 51-92): creates the two
layers (fresh, so OSM visible), calls `sat.setVisibility(false)`, publishes
the globe instance, and flies the camera to `US_VIEW`. -/
def mountImp (s : ImpState) : ImpState :=
  { s with
    globusInit := true
    osmVisible := true
    satVisible := false
    cameraCalls := s.cameraCalls ++ [CamCall.flyLonLat US_VIEW] }

/-- `switchLayer` of the imperative App (lines 95-106): returns untouched
when the globe refs are unset; otherwise shows/hides the two providers for
`"OSM"`/`"SAT"` (any other name touches neither) and then always runs
`setBase(layerName)`. -/
def switchLayerImp (s : ImpState) (layerName : String) : ImpState :=
  if s.globusInit = false then s
  else
    let s1 :=
      if layerName = "OSM" then
        { s with osmVisible := true, satVisible := false }
      else if layerName = "SAT" then
        { s with osmVisible := false, satVisible := true }
      else s
    { s1 with base := layerName }

/-- `zoomIn` of the imperative App (line 109): `globus?.planet?.camera?.zoomIn()`;
optional chaining makes it a no-op while `globus` is null. -/
def zoomInImp (s : ImpState) : ImpState :=
  if s.globusInit = false then s
  else { s with cameraCalls := s.cameraCalls ++ [CamCall.camZoomIn] }

/-- `zoomOut` of the imperative App (line 110). -/
def zoomOutImp (s : ImpState) : ImpState :=
  if s.globusInit = false then s
  else { s with cameraCalls := s.cameraCalls ++ [CamCall.camZoomOut] }

/-- `resetCompass` of the imperative App (line 111):
`globus?.planet?.camera?.flyLonLat(US_VIEW)`. -/
def resetCompassImp (s : ImpState) : ImpState :=
  if s.globusInit = false then s
  else { s with cameraCalls := s.cameraCalls ++ [CamCall.flyLonLat US_VIEW] }

/-- One user operation on the imperative App: the JSX wires the slider's
`onChange` to `setSliderIdx`, the base buttons to `switchLayer("OSM"/"SAT")`,
the overlay background click to `setShowIntro(false)`, and the camera
buttons to the three camera handlers. -/
def stepImp (s : ImpState) (op : Op) : ImpState :=
  match op with
  | Op.dismissIntro => { s with showIntro := false }
  | Op.setSlider i => { s with sliderIdx := i }
  | Op.clickOSM => switchLayerImp s "OSM"
  | Op.clickSAT => switchLayerImp s "SAT"
  | Op.zoomIn => zoomInImp s
  | Op.zoomOut => zoomOutImp s
  | Op.resetCompass => resetCompassImp s

/-- Run the imperative App from mount through a sequence of user operations. -/
def runImp (ops : List Op) : ImpState :=
  List.foldl stepImp (mountImp impInit) ops

/-- Component state of the declarative-wrapper App (src/unnamed/part_005).
The base layers are not toggled: the `layers` prop is the memo
`base === "OSM" ? [osmLayer] : [satLayer]`, so only `base` is state.
`globeInit` models whether the `GlobeReact` ref is populated. -/
structure DeclState where
  showIntro : Bool
  sliderIdx : Nat
  base : String
  globeInit : Bool
  cameraCalls : List CamCall
deriving DecidableEq

/-- Initial hook values of the declarative App. -/
def declInit : DeclState :=
  ⟨true, 0, "OSM", false, []⟩

/-- Mounting the declarative App: the `GlobeReact` element is created with
`cameraView={START_VIEW}` and the ref becomes populated. -/
def mountDecl (s : DeclState) : DeclState :=
  { s with
    globeInit := true
    cameraCalls := s.cameraCalls ++ [CamCall.flyLonLat START_VIEW] }

/-- The `layers` prop handed to the `GlobeReact` element: the memoized
`base === "OSM" ? [osmLayer] : [satLayer]`, by provider name. -/
def declBaseLayers (s : DeclState) : List String :=
  if s.base = "OSM" then ["OSM"] else ["SAT"]

/-- `zoomIn` of the declarative App (line 95):
`getGlobe()?.planet?.camera?.zoomIn()`. -/
def zoomInDecl (s : DeclState) : DeclState :=
  if s.globeInit = false then s
  else { s with cameraCalls := s.cameraCalls ++ [CamCall.camZoomIn] }

/-- `zoomOut` of the declarative App (line 96). -/
def zoomOutDecl (s : DeclState) : DeclState :=
  if s.globeInit = false then s
  else { s with cameraCalls := s.cameraCalls ++ [CamCall.camZoomOut] }

/-- `resetCompass` of the declarative App (line 97):
`getGlobe()?.planet?.camera?.flyLonLat(START_VIEW)`. -/
def resetCompassDecl (s : DeclState) : DeclState :=
  if s.globeInit = false then s
  else { s with cameraCalls := s.cameraCalls ++ [CamCall.flyLonLat START_VIEW] }

/-- One user operation on the declarative App: its base buttons call
`setBase("OSM"/"SAT")` directly, with no initialization guard. -/
def stepDecl (s : DeclState) (op : Op) : DeclState :=
  match op with
  | Op.dismissIntro => { s with showIntro := false }
  | Op.setSlider i => { s with sliderIdx := i }
  | Op.clickOSM => { s with base := "OSM" }
  | Op.clickSAT => { s with base := "SAT" }
  | Op.zoomIn => zoomInDecl s
  | Op.zoomOut => zoomOutDecl s
  | Op.resetCompass => resetCompassDecl s

/-- Run the declarative App from mount through a sequence of user operations. -/
def runDecl (ops : List Op) : DeclState :=
  List.foldl stepDecl (mountDecl declInit) ops

/-- Component state of the part_004 prototype App: no intro overlay and no
timeline; `layers` is the globe's layer collection by provider name. -/
structure P4State where
  globusInit : Bool
  currentLayer : String
  layers : List String
  cameraCalls : List CamCall
deriving DecidableEq

/-- Initial hook values of the part_004 prototype. -/
def p4Init : P4State :=
  ⟨false, "OSM", [], []⟩

/-- The mount effect of the part_004 prototype (lines 32-63): creates the
globe with `layers: [osm]`, publishes the instance and flies the camera. -/
def mountP4 (s : P4State) : P4State :=
  { s with
    globusInit := true
    layers := ["OSM"]
    cameraCalls := s.cameraCalls ++ [CamCall.flyLonLat P4_START_VIEW] }

/-- `switchLayer` of the part_004 prototype (lines 65-72): guarded by
`if (!globus) return`, then `globus.layers.clear()`, then a new
`OpenStreetMap` is added only when the name is `"OSM"` (there is no SAT
provider), then `setCurrentLayer(layerName)`. -/
def switchLayerP4 (s : P4State) (layerName : String) : P4State :=
  if s.globusInit = false then s
  else
    let s1 := { s with layers := [] }
    let s2 :=
      if layerName = "OSM" then { s1 with layers := s1.layers ++ ["OSM"] }
      else s1
    { s2 with currentLayer := layerName }

/-- Two imperative App states agree on every piece of React component state
other than the camera trace: intro flag, slider index, base name and the two
layer visibilities. -/
def sameUiState (s t : ImpState) : Prop :=
  t.showIntro = s.showIntro ∧ t.sliderIdx = s.sliderIdx ∧ t.base = s.base
    ∧ t.osmVisible = s.osmVisible ∧ t.satVisible = s.satVisible

/-- `zoomIn` of the part_004 prototype (lines 74-77). -/
def zoomInP4 (s : P4State) : P4State :=
  if s.globusInit = false then s
  else { s with cameraCalls := s.cameraCalls ++ [CamCall.camZoomIn] }

/-- `zoomOut` of the part_004 prototype (lines 79-82). -/
def zoomOutP4 (s : P4State) : P4State :=
  if s.globusInit = false then s
  else { s with cameraCalls := s.cameraCalls ++ [CamCall.camZoomOut] }

/-- `resetCompass` of the part_004 prototype (lines 84-87): flies to
`{ lon: 0, lat: 0, height: 4500000 }`. -/
def resetCompassP4 (s : P4State) : P4State :=
  if s.globusInit = false then s
  else { s with cameraCalls := s.cameraCalls ++ [CamCall.flyLonLat P4_RESET_VIEW] }

/-! Helper lemmas. -/

/-- `switchLayer` never touches the intro flag or the slider index. -/
theorem switchLayerImp_frame (s : ImpState) (n : String) :
    (switchLayerImp s n).showIntro = s.showIntro
      ∧ (switchLayerImp s n).sliderIdx = s.sliderIdx
      ∧ (switchLayerImp s n).globusInit = s.globusInit := by
  unfold switchLayerImp
  split_ifs <;> exact ⟨rfl, rfl, rfl⟩

/-- Every user operation preserves the initialization flag of the imperative
App: only the mount effect sets it. -/
theorem stepImp_globusInit (s : ImpState) (op : Op) :
    (stepImp s op).globusInit = s.globusInit := by
  cases op <;>
    simp only [stepImp, switchLayerImp, zoomInImp, zoomOutImp, resetCompassImp] <;>
    split_ifs <;> rfl

/-- Every user operation preserves the ref flag of the declarative App. -/
theorem stepDecl_globeInit (t : DeclState) (op : Op) :
    (stepDecl t op).globeInit = t.globeInit := by
  cases op <;>
    simp only [stepDecl, zoomInDecl, zoomOutDecl, resetCompassDecl] <;>
    split_ifs <;> rfl

/-- After initialization, each single user operation moves the imperative and
the declarative App to states that still agree on the base name and the
slider index. -/
theorem step_sync (s : ImpState) (t : DeclState) (op : Op)
    (hg : s.globusInit = true) (hb : s.base = t.base) (hi : s.sliderIdx = t.sliderIdx) :
    (stepImp s op).base = (stepDecl t op).base
      ∧ (stepImp s op).sliderIdx = (stepDecl t op).sliderIdx := by
  cases op <;>
    simp only [stepImp, stepDecl, switchLayerImp, zoomInImp, zoomOutImp,
      resetCompassImp, zoomInDecl, zoomOutDecl, resetCompassDecl, hg] <;>
    (first
      | (split_ifs <;> simp_all)
      | simp_all)

/-- Lifting of `step_sync` to operation sequences. -/
theorem foldl_sync (ops : List Op) :
    ∀ (s : ImpState) (t : DeclState), s.globusInit = true →
      s.base = t.base → s.sliderIdx = t.sliderIdx →
      (List.foldl stepImp s ops).base = (List.foldl stepDecl t ops).base
        ∧ (List.foldl stepImp s ops).sliderIdx = (List.foldl stepDecl t ops).sliderIdx := by
  induction ops with
  | nil => exact fun s t hg hb hi => ⟨hb, hi⟩
  | cons op rest ih =>
      intro s t hg hb hi
      have h1 := step_sync s t op hg hb hi
      exact ih (stepImp s op) (stepDecl t op)
        (by rw [stepImp_globusInit]; exact hg) h1.1 h1.2

/-! Claim theorems. -/

/-- C1: the timeline slider has exactly 25 positions, the integer indices 0
through 24 inclusive in steps of 1, and at every such index `i` the selected
date is the hour-snapped start time plus exactly `i * 3600000` milliseconds. -/
theorem C1_slider_positions_and_dates :
    sliderMin = 0 ∧ sliderMax = 24 ∧ sliderStep = 1
      ∧ sliderPositions.card = 25
      ∧ ∀ i ∈ sliderPositions, ∀ epochMs localOffMs : Int,
          selectedDate (snapNow epochMs localOffMs) i
            = snapNow epochMs localOffMs + (i : Int) * 3600000 := by
  refine ⟨rfl, rfl, rfl, ?_, ?_⟩
  · simp [sliderPositions, sliderMin, sliderMax, Nat.card_Icc]
  · intro i _ epochMs localOffMs
    rfl

/-- C1 witness at slider index 3. -/
theorem C1_slider_positions_and_dates_witness :
    3 ∈ sliderPositions
      ∧ selectedDate (snapNow 0 0) 3 = snapNow 0 0 + (3 : Int) * 3600000 :=
  ⟨by decide, C1_slider_positions_and_dates.2.2.2.2 3 (by decide) 0 0⟩

/-- C4: the intro overlay flag starts true, a background click sets it to
false, and no user operation ever sets it back to true. -/
theorem C4_intro_dismissal_monotone :
    impInit.showIntro = true
      ∧ (∀ s : ImpState, (stepImp s Op.dismissIntro).showIntro = false)
      ∧ ∀ (s : ImpState) (op : Op),
          s.showIntro = false → (stepImp s op).showIntro = false := by
  refine ⟨rfl, fun s => rfl, fun s op h => ?_⟩
  cases op <;>
    simp only [stepImp, switchLayerImp, zoomInImp, zoomOutImp, resetCompassImp] <;>
    (first
      | (split_ifs <;> simp_all)
      | simp_all)

/-- C4 witness: dismissing and then clicking SAT keeps the overlay hidden. -/
theorem C4_intro_dismissal_monotone_witness :
    (stepImp (stepImp (mountImp impInit) Op.dismissIntro) Op.clickSAT).showIntro
      = false :=
  C4_intro_dismissal_monotone.2.2 (stepImp (mountImp impInit) Op.dismissIntro)
    Op.clickSAT (C4_intro_dismissal_monotone.2.1 (mountImp impInit))

/-- C5: the three camera handlers leave all UI state (intro flag, slider
index, base name, layer visibilities) unchanged in every App version and only
append camera method invocations; before the globe instance exists they do
nothing at all. -/
theorem C5_camera_handlers_frame (s : ImpState) :
    (sameUiState s (zoomInImp s) ∧ sameUiState s (zoomOutImp s)
        ∧ sameUiState s (resetCompassImp s))
      ∧ (s.globusInit = true →
          (zoomInImp s).cameraCalls = s.cameraCalls ++ [CamCall.camZoomIn]
            ∧ (zoomOutImp s).cameraCalls = s.cameraCalls ++ [CamCall.camZoomOut]
            ∧ (resetCompassImp s).cameraCalls
                = s.cameraCalls ++ [CamCall.flyLonLat US_VIEW])
      ∧ (s.globusInit = false →
          zoomInImp s = s ∧ zoomOutImp s = s ∧ resetCompassImp s = s)
      ∧ (∀ t : DeclState,
          ((zoomInDecl t).showIntro = t.showIntro
              ∧ (zoomOutDecl t).showIntro = t.showIntro
              ∧ (resetCompassDecl t).showIntro = t.showIntro)
            ∧ ((zoomInDecl t).sliderIdx = t.sliderIdx
              ∧ (zoomOutDecl t).sliderIdx = t.sliderIdx
              ∧ (resetCompassDecl t).sliderIdx = t.sliderIdx)
            ∧ ((zoomInDecl t).base = t.base
              ∧ (zoomOutDecl t).base = t.base
              ∧ (resetCompassDecl t).base = t.base)
            ∧ (t.globeInit = true →
              (zoomInDecl t).cameraCalls = t.cameraCalls ++ [CamCall.camZoomIn]
                ∧ (zoomOutDecl t).cameraCalls
                    = t.cameraCalls ++ [CamCall.camZoomOut]
                ∧ (resetCompassDecl t).cameraCalls
                    = t.cameraCalls ++ [CamCall.flyLonLat START_VIEW])
            ∧ (t.globeInit = false →
              zoomInDecl t = t ∧ zoomOutDecl t = t ∧ resetCompassDecl t = t))
      ∧ ∀ u : P4State,
          ((zoomInP4 u).currentLayer = u.currentLayer
              ∧ (zoomOutP4 u).currentLayer = u.currentLayer
              ∧ (resetCompassP4 u).currentLayer = u.currentLayer)
            ∧ ((zoomInP4 u).layers = u.layers
              ∧ (zoomOutP4 u).layers = u.layers
              ∧ (resetCompassP4 u).layers = u.layers)
            ∧ (u.globusInit = true →
              (zoomInP4 u).cameraCalls = u.cameraCalls ++ [CamCall.camZoomIn]
                ∧ (zoomOutP4 u).cameraCalls
                    = u.cameraCalls ++ [CamCall.camZoomOut]
                ∧ (resetCompassP4 u).cameraCalls
                    = u.cameraCalls ++ [CamCall.flyLonLat P4_RESET_VIEW])
            ∧ (u.globusInit = false →
              zoomInP4 u = u ∧ zoomOutP4 u = u ∧ resetCompassP4 u = u) := by
  refine ⟨⟨?_, ?_, ?_⟩, fun hg => ⟨?_, ?_, ?_⟩, fun hg => ⟨?_, ?_, ?_⟩,
      fun t => ?_, fun u => ?_⟩
  · unfold sameUiState zoomInImp
    split_ifs <;> simp
  · unfold sameUiState zoomOutImp
    split_ifs <;> simp
  · unfold sameUiState resetCompassImp
    split_ifs <;> simp
  · simp [zoomInImp, hg]
  · simp [zoomOutImp, hg]
  · simp [resetCompassImp, hg]
  · simp [zoomInImp, hg]
  · simp [zoomOutImp, hg]
  · simp [resetCompassImp, hg]
  · by_cases ht : t.globeInit = false <;>
      simp_all [zoomInDecl, zoomOutDecl, resetCompassDecl]
  · by_cases hu : u.globusInit = false <;>
      simp_all [zoomInP4, zoomOutP4, resetCompassP4]

/-- C5 witness: mounted states of all three versions record the camera
calls while every other field is untouched, and unmounted states are fully
unchanged. -/
theorem C5_camera_handlers_frame_witness :
    sameUiState (mountImp impInit) (zoomInImp (mountImp impInit))
      ∧ (zoomInImp (mountImp impInit)).cameraCalls
          = (mountImp impInit).cameraCalls ++ [CamCall.camZoomIn]
      ∧ zoomInImp impInit = impInit
      ∧ (zoomOutDecl (mountDecl declInit)).sliderIdx
          = (mountDecl declInit).sliderIdx
      ∧ (resetCompassDecl (mountDecl declInit)).cameraCalls
          = (mountDecl declInit).cameraCalls ++ [CamCall.flyLonLat START_VIEW]
      ∧ zoomInDecl declInit = declInit
      ∧ (zoomOutP4 (mountP4 p4Init)).cameraCalls
          = (mountP4 p4Init).cameraCalls ++ [CamCall.camZoomOut]
      ∧ zoomInP4 p4Init = p4Init := by
  have h1 := C5_camera_handlers_frame (mountImp impInit)
  have h2 := C5_camera_handlers_frame impInit
  refine ⟨h1.1.1, (h1.2.1 rfl).1, (h2.2.2.1 rfl).1, ?_, ?_, ?_, ?_, ?_⟩
  · exact (h1.2.2.2.1 (mountDecl declInit)).2.1.2.1
  · exact ((h1.2.2.2.1 (mountDecl declInit)).2.2.2.1 rfl).2.2
  · exact ((h1.2.2.2.1 declInit).2.2.2.2 rfl).1
  · exact ((h1.2.2.2.2 (mountP4 p4Init)).2.2.1 rfl).2.1
  · exact ((h1.2.2.2.2 p4Init).2.2.2 rfl).1

/-- C6: the timeline's right endpoint equals the snapped now plus exactly 24
hours, and the selected date at the maximum slider index 24 equals that
endpoint. -/
theorem C6_end_is_now_plus_24h (now : Int) :
    endTime now = now + 24 * 3600000
      ∧ selectedDate now sliderMax = endTime now := by
  constructor
  · rfl
  · simp [selectedDate, endTime, sliderMax, HOUR_MS]

/-- C8: once the globe is initialized, `switchLayer` with a name other than
"OSM"/"SAT" changes only the `base` state and neither visibility; before
initialization it changes nothing for any argument. -/
theorem C8_switchLayer_other_args (s : ImpState) (layerName : String) :
    (s.globusInit = true → layerName ≠ "OSM" → layerName ≠ "SAT" →
        switchLayerImp s layerName = { s with base := layerName })
      ∧ (s.globusInit = false → switchLayerImp s layerName = s) := by
  constructor
  · intro hg h1 h2
    simp [switchLayerImp, hg, h1, h2]
  · intro hg
    simp [switchLayerImp, hg]

/-- C8 witness at the unknown layer name "XYZ". -/
theorem C8_switchLayer_other_args_witness :
    switchLayerImp (mountImp impInit) "XYZ"
        = { mountImp impInit with base := "XYZ" }
      ∧ switchLayerImp impInit "XYZ" = impInit :=
  ⟨(C8_switchLayer_other_args (mountImp impInit) "XYZ").1 rfl
      (by decide) (by decide),
    (C8_switchLayer_other_args impInit "XYZ").2 rfl⟩

/-- C2 counterexample: in the part_004 version, after mount, the cited
`switchLayer("SAT")` call empties the globe's layer collection — it is false
that exactly one base tile provider is visible with the named one shown. -/
theorem C2_counterexample :
    ¬ ((switchLayerP4 (mountP4 p4Init) "SAT").layers.length = 1
        ∧ "SAT" ∈ (switchLayerP4 (mountP4 p4Init) "SAT").layers) := by
  decide

/-- C2 amended: in the main imperative App, every post-initialization
`switchLayer("OSM"/"SAT")` leaves exactly one of the two providers visible,
the named one; the declarative App always passes exactly one base layer, and
a click on its OSM/SAT button leaves exactly the named provider in the
`layers` prop; but the part_004 prototype's `switchLayer` has no SAT
provider — "OSM" leaves exactly the OSM layer while "SAT" removes every
layer. -/
theorem C2_amended_switchLayer_visibility (s : ImpState) (layerName : String)
    (hg : s.globusInit = true) (h : layerName = "OSM" ∨ layerName = "SAT") :
    ((switchLayerImp s layerName).osmVisible
        ≠ (switchLayerImp s layerName).satVisible)
      ∧ (layerName = "OSM" →
          (switchLayerImp s layerName).osmVisible = true
            ∧ (switchLayerImp s layerName).satVisible = false)
      ∧ (layerName = "SAT" →
          (switchLayerImp s layerName).satVisible = true
            ∧ (switchLayerImp s layerName).osmVisible = false)
      ∧ (∀ t : DeclState, (declBaseLayers t).length = 1
          ∧ declBaseLayers (stepDecl t Op.clickOSM) = ["OSM"]
          ∧ declBaseLayers (stepDecl t Op.clickSAT) = ["SAT"])
      ∧ ∀ u : P4State, u.globusInit = true →
          (switchLayerP4 u "OSM").layers = ["OSM"]
            ∧ (switchLayerP4 u "SAT").layers = [] := by
  refine ⟨?_, ?_, ?_, ?_, ?_⟩
  · rcases h with h | h <;> simp [switchLayerImp, hg, h]
  · intro h1
    simp [switchLayerImp, hg, h1]
  · intro h1
    have h2 : ¬ (layerName = "OSM") := by
      rw [h1]; decide
    simp [switchLayerImp, hg, h1, h2]
  · intro t
    refine ⟨?_, ?_, ?_⟩
    · unfold declBaseLayers
      split_ifs <;> rfl
    · simp [stepDecl, declBaseLayers]
    · simp [stepDecl, declBaseLayers]
  · intro u hu
    constructor <;> simp [switchLayerP4, hu]

/-- C2 witness: clicking SAT on the mounted imperative App shows exactly the
SAT provider, and clicking SAT on the mounted declarative App makes the
layers prop exactly the SAT provider. -/
theorem C2_amended_switchLayer_visibility_witness :
    ((switchLayerImp (mountImp impInit) "SAT").satVisible = true
        ∧ (switchLayerImp (mountImp impInit) "SAT").osmVisible = false)
      ∧ declBaseLayers (stepDecl (mountDecl declInit) Op.clickSAT) = ["SAT"] :=
  ⟨(C2_amended_switchLayer_visibility (mountImp impInit) "SAT" rfl
      (Or.inr rfl)).2.2.1 rfl,
    ((C2_amended_switchLayer_visibility (mountImp impInit) "SAT" rfl
      (Or.inr rfl)).2.2.2.1 (mountDecl declInit)).2.2⟩

/-- C3 counterexample: already at mount, before any user operation, the
imperative App's camera target is the U.S. view while the declarative App's
is the California start view, so the versions do not produce the same camera
target. -/
theorem C3_counterexample :
    camTarget (runImp []).cameraCalls ≠ camTarget (runDecl []).cameraCalls := by
  decide

/-- C3 amended: for every sequence of user operations after mount, the
imperative and the declarative App agree on the base-layer selection, on the
slider index and hence on the selected timeline date; their camera targets,
however, differ (distinct initial and reset views), and the part_004
prototype has no timeline at all. -/
theorem C3_amended_timeline_and_base_agree (ops : List Op) :
    (runImp ops).base = (runDecl ops).base
      ∧ (runImp ops).sliderIdx = (runDecl ops).sliderIdx
      ∧ ∀ now : Int,
          selectedDate now (runImp ops).sliderIdx
            = selectedDate now (runDecl ops).sliderIdx := by
  have h := foldl_sync ops (mountImp impInit) (mountDecl declInit) rfl rfl rfl
  simp only [runImp, runDecl]
  exact ⟨h.1, h.2, fun now => by rw [h.2]⟩

/-- C9 counterexample: when the formatter output contains a `timeZoneName`
part whose value is the empty string, `fmtTZShort` does not yield that
part's value — the JS `||` treats the empty string as falsy and returns
"CT" instead. -/
theorem C9_counterexample :
    fmtTZShort [(⟨"timeZoneName", ""⟩ : FormatPart)]
      ≠ fmtTZShortSpec [(⟨"timeZoneName", ""⟩ : FormatPart)] := by
  decide

/-- C9 amended: `fmtTZShort` is total and always returns a non-empty string;
it yields the found `timeZoneName` part's value whenever that value is
non-empty, and falls back to "CT" both when no such part exists and when the
found value is the empty string (JS `||` treats `""` as falsy). -/
theorem C9_amended_fmtTZShort_total (parts : List FormatPart) :
    fmtTZShort parts ≠ ""
      ∧ (∀ p : FormatPart,
          parts.find? (fun q => q.type = "timeZoneName") = some p →
          p.value ≠ "" → fmtTZShort parts = p.value)
      ∧ (parts.find? (fun q => q.type = "timeZoneName") = none →
          fmtTZShort parts = "CT")
      ∧ ∀ p : FormatPart,
          parts.find? (fun q => q.type = "timeZoneName") = some p →
          p.value = "" → fmtTZShort parts = "CT" := by
  rcases hf : parts.find? (fun q => q.type = "timeZoneName") with _ | p
  · refine ⟨?_, ?_, ?_, ?_⟩ <;> simp [fmtTZShort, hf]
  · by_cases hv : p.value = ""
    · refine ⟨?_, ?_, ?_, ?_⟩ <;> simp [fmtTZShort, hf, hv]
    · refine ⟨?_, ?_, ?_, ?_⟩ <;> simp [fmtTZShort, hf, hv]

/-- C9 witness on a one-part formatter output with value "CDT". -/
theorem C9_amended_fmtTZShort_total_witness :
    fmtTZShort [(⟨"timeZoneName", "CDT"⟩ : FormatPart)] ≠ ""
      ∧ fmtTZShort [(⟨"timeZoneName", "CDT"⟩ : FormatPart)] = "CDT" :=
  ⟨(C9_amended_fmtTZShort_total [(⟨"timeZoneName", "CDT"⟩ : FormatPart)]).1,
    (C9_amended_fmtTZShort_total [(⟨"timeZoneName", "CDT"⟩ : FormatPart)]).2.1
      (⟨"timeZoneName", "CDT"⟩ : FormatPart) (by decide) (by decide)⟩

/-- C10 counterexample: at the epoch instant with the browser at UTC+05:30,
the hour-snapped now renders at minute 30 of the hour in the America/Chicago
zone (UTC-06:00), so the displayed start label does not lie on an hour
boundary. -/
theorem C10_counterexample :
    displayedMinute (snapNow 0 19800000) (-21600000) = 30
      ∧ ¬ onHourBoundary (snapNow 0 19800000) (-21600000) := by
  constructor
  · decide
  · decide

/-- C10 amended: the snap zeroes minutes, seconds and milliseconds of the
browser-local clock, so every slider-selectable date and both endpoint
labels lie on an exact hour boundary of the browser-local zone; they lie on
an hour boundary of the displayed zone exactly when that zone's UTC offset
differs from the browser's by a whole number of hours (true for
America/Chicago only in whole-hour-offset locales). -/
theorem C10_amended_hour_snap (epochMs localOffMs tzOffMs : Int) (idx : Nat) :
    onHourBoundary (snapNow epochMs localOffMs) localOffMs
      ∧ displayedMinute (snapNow epochMs localOffMs) localOffMs = 0
      ∧ ((tzOffMs - localOffMs) % HOUR_MS = 0 →
          onHourBoundary (selectedDate (snapNow epochMs localOffMs) idx) tzOffMs
            ∧ onHourBoundary (endTime (snapNow epochMs localOffMs)) tzOffMs) := by
  unfold onHourBoundary displayedMinute snapNow selectedDate endTime HOUR_MS
  omega

/-- C10 witness: a browser in the Chicago zone itself (UTC-06:00) displays
the slider date at index 5 on an hour boundary. -/
theorem C10_amended_hour_snap_witness :
    ((-21600000 : Int) - (-21600000)) % HOUR_MS = 0
      ∧ onHourBoundary
          (selectedDate (snapNow 0 (-21600000)) 5) (-21600000) :=
  ⟨by decide,
    ((C10_amended_hour_snap 0 (-21600000) (-21600000) 5).2.2 (by decide)).1⟩

end FireCast
